import Mathlib

/-!
Shallow embedding of the pretty-dope-fileviewer sources.

Conventions used throughout:
* C++ `double` values (zoom factors, fit ratios) are modelled as `ℚ`.
* C++ `int` values are modelled as `Int`; C++ integer division truncates
  toward zero, which is `Int.tdiv`.
* Qt signal emissions are modelled as explicit return values
  (`Option`/`Bool`/lists of emission events).
* `QRect` page geometries are modelled as `Option (Int × Int)` carrying
  `(y, height)`; `none` stands for a null rectangle (and also for a null
  page-widget pointer, which the navigation code treats the same way).
* Poppler page retrieval for an in-range index is modelled as succeeding;
  whether rasterization (`renderToImage`) produces a null image is an
  explicit oracle parameter `raster : Int → Bool`.
-/

namespace PDFViewerModel

/-! ## ZoomController (src/zoomcontroller.cpp, zoomcontroller.h) -/

/-- Zoom modes supported by the viewer (enum class ZoomMode). -/
inductive ZoomMode where
  | Free
  | FitWidth
  | FitPage
  deriving DecidableEq, Repr

/-- Viewport information required for zoom calculations (struct ViewportInfo). -/
structure ViewportInfo where
  width : Int := 0
  height : Int := 0
  marginsH : Int := 0
  marginsV : Int := 0
  deriving DecidableEq, Repr

/-- Page reference dimensions used for auto-fit calculations (struct PageInfo). -/
structure PageInfo where
  width : Int := 0
  height : Int := 0
  deriving DecidableEq, Repr

/-- The private state of a ZoomController: current factor, mode and bounds. -/
structure ZoomState where
  zoom : ℚ
  mode : ZoomMode
  minZ : ℚ
  maxZ : ℚ
  deriving DecidableEq, Repr

def DEFAULT_ZOOM : ℚ := 1
def MIN_ZOOM_DEFAULT : ℚ := 1/4
def MAX_ZOOM_DEFAULT : ℚ := 10

/-- State established by the ZoomController constructor. -/
def initZoomState : ZoomState :=
  { zoom := DEFAULT_ZOOM, mode := ZoomMode.Free,
    minZ := MIN_ZOOM_DEFAULT, maxZ := MAX_ZOOM_DEFAULT }

/-- std::clamp(z, lo, hi): `z < lo ? lo : hi < z ? hi : z`. -/
def clampRange (lo hi z : ℚ) : ℚ :=
  if z < lo then lo else if hi < z then hi else z

/-- ZoomController::clampZoom: clamp against the stored bounds. -/
def clampZoom (s : ZoomState) (z : ℚ) : ℚ :=
  clampRange s.minZ s.maxZ z

/-- ZoomController::applyZoom.  Returns the updated state together with the
payload of the `zoomChanged` signal (`none` when nothing changed and no
signal is emitted). -/
def applyZoom (s : ZoomState) (newZoom : ℚ) (newMode : ZoomMode) :
    ZoomState × Option (ℚ × ZoomMode) :=
  let clampedZoom := clampZoom s newZoom
  if clampedZoom ≠ s.zoom ∨ newMode ≠ s.mode then
    ({ s with zoom := clampedZoom, mode := newMode }, some (clampedZoom, newMode))
  else
    (s, none)

/-- ZoomController::setZoom. -/
def setZoom (s : ZoomState) (factor : ℚ) : ZoomState × Option (ℚ × ZoomMode) :=
  applyZoom s factor ZoomMode.Free

/-- ZoomController::zoomIn (`setZoom(currentZoom() * 1.2)`). -/
def zoomIn (s : ZoomState) : ZoomState × Option (ℚ × ZoomMode) :=
  setZoom s (s.zoom * (6/5))

/-- ZoomController::zoomOut (`setZoom(currentZoom() / 1.2)`). -/
def zoomOut (s : ZoomState) : ZoomState × Option (ℚ × ZoomMode) :=
  setZoom s (s.zoom / (6/5))

/-- ZoomController::resetZoom (`setZoom(1.0)`). -/
def resetZoom (s : ZoomState) : ZoomState × Option (ℚ × ZoomMode) :=
  setZoom s 1

/-- ZoomController::calculateFitWidth. -/
def calculateFitWidth (s : ZoomState) (viewport : ViewportInfo) (page : PageInfo) : ℚ :=
  if page.width ≤ 0 then
    s.zoom
  else
    let availableWidth : Int := viewport.width - viewport.marginsH
    if availableWidth ≤ 0 then
      s.zoom
    else
      (availableWidth : ℚ) / (page.width : ℚ)

/-- ZoomController::calculateFitPage. -/
def calculateFitPage (s : ZoomState) (viewport : ViewportInfo) (page : PageInfo) : ℚ :=
  if page.width ≤ 0 ∨ page.height ≤ 0 then
    s.zoom
  else
    let availableWidth : Int := viewport.width - viewport.marginsH
    let availableHeight : Int := viewport.height - viewport.marginsV
    if availableWidth ≤ 0 ∨ availableHeight ≤ 0 then
      s.zoom
    else
      let widthRatio := (availableWidth : ℚ) / (page.width : ℚ)
      let heightRatio := (availableHeight : ℚ) / (page.height : ℚ)
      min widthRatio heightRatio

/-- ZoomController::fitToWidth. -/
def fitToWidth (s : ZoomState) (viewport : ViewportInfo) (page : PageInfo) :
    ZoomState × Option (ℚ × ZoomMode) :=
  applyZoom s (calculateFitWidth s viewport page) ZoomMode.FitWidth

/-- ZoomController::fitToPage. -/
def fitToPage (s : ZoomState) (viewport : ViewportInfo) (page : PageInfo) :
    ZoomState × Option (ℚ × ZoomMode) :=
  applyZoom s (calculateFitPage s viewport page) ZoomMode.FitPage

/-- ZoomController::onViewportResize: recalculate only in an auto-fit mode. -/
def onViewportResize (s : ZoomState) (viewport : ViewportInfo) (page : PageInfo) :
    ZoomState × Option (ℚ × ZoomMode) :=
  match s.mode with
  | ZoomMode.FitWidth => fitToWidth s viewport page
  | ZoomMode.FitPage => fitToPage s viewport page
  | ZoomMode.Free => (s, none)

/-- ZoomController::setLimits: store the new bounds, then re-apply them to the
current zoom if it is now out of range. -/
def setLimits (s : ZoomState) (minZoom maxZoom : ℚ) :
    ZoomState × Option (ℚ × ZoomMode) :=
  let s1 := { s with minZ := minZoom, maxZ := maxZoom }
  let clampedZoom := clampZoom s1 s.zoom
  if clampedZoom ≠ s.zoom then
    applyZoom s1 clampedZoom s.mode
  else
    (s1, none)

/-! ## PDFPage (src/pdfpage.h, PDFPage implementation) -/

/-- State of one PDFPage widget: whether a Poppler page was assigned,
its index, the render cache flag `m_isRendered`, the (never-updated)
`m_lastDpi` field, and the DPI of the pixmap currently shown on the label
(`none` while only placeholder text is shown). -/
structure PageState where
  hasPage : Bool
  pageIndex : Int
  isRendered : Bool
  lastDpi : Int
  image : Option Int
  deriving DecidableEq, Repr

/-- PDFPage::setPage: assign page data and reset the render state. -/
def PDFPage.setPage (s : PageState) (hasPage : Bool) (pageIndex : Int) : PageState :=
  { s with hasPage := hasPage, pageIndex := pageIndex, isRendered := false,
           image := none }

/-- State of a fresh PDFPage widget right after `setPage` in
PageManager::addPageWidget (constructor sets `m_lastDpi = -1`). -/
def initialSlot (i : Nat) : PageState :=
  { hasPage := true, pageIndex := (i : Int), isRendered := false,
    lastDpi := -1, image := none }

/-- PDFPage::render.  `raster dpi` tells whether `renderToImage(dpi, dpi)`
produces a non-null image.  Returns the updated widget state and the number
of rasterization calls performed (0 or 1).  Faithful to the source: the
only early-out conditions are a missing page and `m_isRendered`; `m_lastDpi`
is never consulted nor written. -/
def PDFPage.render (raster : Int → Bool) (s : PageState) (dpi : Int) :
    PageState × Nat :=
  if s.hasPage = false then
    (s, 0)
  else if s.isRendered then
    (s, 0)
  else if raster dpi then
    ({ s with image := some dpi, isRendered := true }, 1)
  else
    (s, 1)

/-! ## PDFDocument (src/pdfdocument.h, PDFDocument implementation) -/

/-- Observable state of a PDFDocument: whether a Poppler document is held,
and how many pages that document reports. -/
structure PDFDoc where
  loaded : Bool
  numPages : Nat
  deriving DecidableEq, Repr

/-- PDFDocument::isLoaded. -/
def PDFDoc.isLoaded (d : PDFDoc) : Bool := d.loaded

/-- PDFDocument::pageCount (`0 if not loaded`). -/
def PDFDoc.pageCount (d : PDFDoc) : Nat :=
  if d.loaded then d.numPages else 0

/-! ## PageManager (PageManager implementation / pagemanager.h) -/

def DEFAULT_SPACING : Int := 20
def DEFAULT_MARGINS : Int := 50
def AVG_PAGE_HEIGHT : Int := 600

/-- State of a PageManager: whether the content widget (with its layout) has
been created, the page widget slots in index order, and whether a document
pointer is held. -/
structure PageManagerState where
  contentWidget : Bool
  slots : List PageState
  hasDocument : Bool
  deriving DecidableEq, Repr

/-- State established by the PageManager constructor (and by `clear`). -/
def initPageManager : PageManagerState :=
  { contentWidget := false, slots := [], hasDocument := false }

/-- PageManager::buildPages: no-op on a null or unloaded document, otherwise
clear, create the content widget and layout, and create one page widget per
document page, in index order. -/
def buildPages (pm : PageManagerState) (document : Option PDFDoc) : PageManagerState :=
  match document with
  | none => pm
  | some d =>
    if d.isLoaded = false then
      pm
    else
      { contentWidget := true,
        slots := (List.range d.pageCount).map initialSlot,
        hasDocument := true }

/-- PageManager::pageAt: null if out of range, otherwise the stored slot. -/
def pageAt (pm : PageManagerState) (index : Int) : Option PageState :=
  if index < 0 ∨ (pm.slots.length : Int) ≤ index then
    none
  else
    pm.slots.getD index.toNat (initialSlot 0) |> some

/-- PageManager::renderPageAt: render the slot if `pageAt` yields a widget.
Returns the updated manager state and the number of rasterization calls. -/
def renderPageAt (raster : Int → Bool) (pm : PageManagerState) (index dpi : Int) :
    PageManagerState × Nat :=
  match pageAt pm index with
  | none => (pm, 0)
  | some s =>
    let r := PDFPage.render raster s dpi
    ({ pm with slots := pm.slots.set index.toNat r.1 }, r.2)

/-- The index sequence of the C++ loop `for (int i = first; i <= last; ++i)`. -/
def intRangeIncl (first last : Int) : List Int :=
  (List.range (last + 1 - first).toNat).map (fun (k : Nat) => first + (k : Int))

/-- PageManager::renderVisiblePages: early-out without a document or with no
slots; otherwise compute the visible range from the average-page-height
heuristic and call `renderPageAt` on every index in it.  Returns the updated
state and the list of indices a render was requested for. -/
def renderVisiblePages (raster : Int → Bool) (pm : PageManagerState)
    (scrollValue viewportHeight preRenderBuffer dpi : Int) :
    PageManagerState × List Int :=
  if pm.hasDocument = false ∨ pm.slots.isEmpty then
    (pm, [])
  else
    let firstVisible := max 0 (Int.tdiv scrollValue AVG_PAGE_HEIGHT - preRenderBuffer)
    let lastVisible := min ((pm.slots.length : Int) - 1)
        (Int.tdiv (scrollValue + viewportHeight) AVG_PAGE_HEIGHT + preRenderBuffer)
    let idxs := intRangeIncl firstVisible lastVisible
    (idxs.foldl (fun acc i => (renderPageAt raster acc i dpi).1) pm, idxs)

/-- PageManager::preRenderInitialPages: render the first
`min(count, slotCount)` slots. -/
def preRenderInitialPages (raster : Int → Bool) (pm : PageManagerState)
    (count dpi : Int) : PageManagerState :=
  if pm.hasDocument = false then
    pm
  else
    let pagesToRender := min count (pm.slots.length : Int)
    (intRangeIncl 0 (pagesToRender - 1)).foldl
      (fun acc i => (renderPageAt raster acc i dpi).1) pm

/-! ## PDFViewer::setDocument (PDFViewer implementation) -/

def VIEWER_DEFAULT_DPI : Int := 200
def PRERENDER_PAGES : Int := 2

/-- The document/page-manager portion of a PDFViewer's state.  Scrolling and
the jump to the first page performed at the end of `setDocument` touch only
scroll position and the current-page index, not the slots or the layout, and
are elided here. -/
structure ViewerState where
  document : Option PDFDoc
  pm : PageManagerState
  zoomFactor : ℚ
  deriving DecidableEq, Repr

/-- PDFViewer::clearDocument (as far as document and page slots go). -/
def clearDocument (v : ViewerState) : ViewerState :=
  { v with document := none, pm := initPageManager }

/-- PDFViewer::setDocument: fail on a null or unloaded document, otherwise
clear, build the page widgets, and pre-render the first five pages at the
initial DPI.  Returns the new state and the boolean result. -/
def setDocument (raster : Int → Bool) (v : ViewerState) (document : Option PDFDoc) :
    ViewerState × Bool :=
  match document with
  | none => (v, false)
  | some d =>
    if d.isLoaded = false then
      (v, false)
    else
      let v1 := clearDocument v
      let pm1 := buildPages v1.pm (some d)
      let initialDPI : Int := (VIEWER_DEFAULT_DPI * v.zoomFactor).floor
      let pm2 := preRenderInitialPages raster pm1 5 initialDPI
      ({ v1 with document := some d, pm := pm2 }, true)

/-! ## NavigationController (src/navigationcontroller.cpp) -/

/-- Whether a page geometry (`(y, height)`, `none` for a null rect or a null
widget pointer) contains the vertical coordinate `c`:
`pageTop <= c && c <= pageTop + pageHeight`. -/
def containsCenter (g : Option (Int × Int)) (c : Int) : Bool :=
  match g with
  | none => false
  | some (top, h) => decide (top ≤ c ∧ c ≤ top + h)

/-- The search loop of NavigationController::updateCurrentPageFromScroll:
first index whose geometry contains `c`, skipping null geometries. -/
def findPageAt (geoms : List (Option (Int × Int))) (c : Int) : Option Nat :=
  match geoms with
  | [] => none
  | g :: rest =>
    if containsCenter g c then
      some 0
    else
      (findPageAt rest c).map (· + 1)

/-- NavigationController::updateCurrentPageFromScroll.  `ctx` is whether
`setContext` provided all three collaborators; `geoms` are the slot
geometries (one per page, so `geoms.length` is the page count); `cur` is
`m_currentPage`.  Returns the new current page and whether
`currentPageChanged` was emitted. -/
def updateCurrentPageFromScroll (ctx : Bool)
    (geoms : List (Option (Int × Int))) (scrollValue viewportHeight : Int)
    (cur : Nat) : Nat × Bool :=
  if ctx = false then
    (cur, false)
  else if geoms.length = 0 then
    (cur, false)
  else
    let viewportCenter := scrollValue + Int.tdiv viewportHeight 2
    let newCurrentPage := (findPageAt geoms viewportCenter).getD 0
    if newCurrentPage ≠ cur then
      (newCurrentPage, true)
    else
      (cur, false)

/-- Emissions of NavigationController::goToPage. -/
inductive NavEmission where
  | requestRenderPage (pageIndex dpi : Int)
  | requestScrollTo (value : Int)
  | currentPageChanged (pageIndex : Nat)
  deriving DecidableEq, Repr

/-- NavigationController::goToPage.  Returns the new `m_currentPage` and the
emissions, in order. -/
def goToPage (ctx : Bool) (geoms : List (Option (Int × Int)))
    (viewportHeight : Int) (cur : Nat) (renderDPI : Int) (pageIndex : Int) :
    Nat × List NavEmission :=
  if ctx = false then
    (cur, [])
  else if pageIndex < 0 ∨ (geoms.length : Int) ≤ pageIndex then
    (cur, [])
  else
    let cur1 := pageIndex.toNat
    match geoms.getD pageIndex.toNat none with
    | none => (cur1, [NavEmission.requestRenderPage pageIndex renderDPI])
    | some (pageTop, pageHeight) =>
      let centerPos := pageTop - Int.tdiv (viewportHeight - pageHeight) 2
      let targetScroll := max 0 centerPos
      (cur1, [NavEmission.requestRenderPage pageIndex renderDPI,
              NavEmission.requestScrollTo targetScroll,
              NavEmission.currentPageChanged cur1])

/-! ## Further definitions: invariants, operation sequences, and concrete
fixtures used to evaluate the model -/

/-- The factor/bounds invariant of the ZoomController: the bounds are
ordered and the stored factor lies within them. -/
def zoomValid (s : ZoomState) : Prop :=
  s.minZ ≤ s.maxZ ∧ s.minZ ≤ s.zoom ∧ s.zoom ≤ s.maxZ

/-- Operations of the ZoomController public interface, for sequencing. -/
inductive ZoomOp where
  | opSetZoom (factor : ℚ)
  | opZoomIn
  | opZoomOut
  | opResetZoom
  | opFitToWidth (viewport : ViewportInfo) (page : PageInfo)
  | opFitToPage (viewport : ViewportInfo) (page : PageInfo)
  | opViewportResize (viewport : ViewportInfo) (page : PageInfo)
  | opSetLimits (minZoom maxZoom : ℚ)

/-- One step of the ZoomController: run the operation, keep the state. -/
def stepZoom (s : ZoomState) (op : ZoomOp) : ZoomState :=
  match op with
  | ZoomOp.opSetZoom f => (setZoom s f).1
  | ZoomOp.opZoomIn => (zoomIn s).1
  | ZoomOp.opZoomOut => (zoomOut s).1
  | ZoomOp.opResetZoom => (resetZoom s).1
  | ZoomOp.opFitToWidth vp pg => (fitToWidth s vp pg).1
  | ZoomOp.opFitToPage vp pg => (fitToPage s vp pg).1
  | ZoomOp.opViewportResize vp pg => (onViewportResize s vp pg).1
  | ZoomOp.opSetLimits a b => (setLimits s a b).1

/-- A 100×200 viewport with no margins, used as concrete input. -/
def zcVp : ViewportInfo := { width := 100, height := 200, marginsH := 0, marginsV := 0 }

/-- A 1000×1000 reference page, used as concrete input. -/
def zcPageSquare : PageInfo := { width := 1000, height := 1000 }

/-- A degenerate reference page of width 0, used as concrete input. -/
def zcPageZeroW : PageInfo := { width := 0, height := 100 }

/-- A zoom state whose lower bound is small enough not to interfere with
fit ratios, used as concrete input. -/
def zcSmallMin : ZoomState :=
  { zoom := 1, mode := ZoomMode.Free, minZ := 1/20, maxZ := 10 }

/-- A PDFPage state that is already rendered (the pixmap on the label came
from a 150-DPI rasterization; `m_lastDpi` holds its initial value -1,
which the implementation never updates). -/
def sRendered : PageState :=
  { hasPage := true, pageIndex := 0, isRendered := true, lastDpi := -1,
    image := some 150 }

/-- A PDFPage state with a page assigned and nothing rendered yet. -/
def sFresh : PageState := initialSlot 0

/-- A ten-page manager as produced by `buildPages` on a loaded ten-page
document. -/
def pm10 : PageManagerState :=
  buildPages initPageManager (some { loaded := true, numPages := 10 })

/-- A viewer with no document. -/
def emptyViewer : ViewerState :=
  { document := none, pm := initPageManager, zoomFactor := 1 }

/-- A loaded document that reports zero pages. -/
def zeroPageDoc : PDFDoc := { loaded := true, numPages := 0 }

/-- Two-page layout: page 0 spans y ∈ [0, 100], page 1 spans y ∈ [110, 210]
(increasing order, no overlap, a 10-pixel gap). -/
def twoPageLayout : List (Option (Int × Int)) := [some (0, 100), some (110, 100)]

/-- Layout ordering relation between two slot geometries: whenever both are
non-null, the first one ends (bottom edge) no later than the second one
starts (top edge).  `List.Pairwise geomBefore` states that pages are laid
out in increasing index order without overlap. -/
def geomBefore (g g2 : Option (Int × Int)) : Prop :=
  match g, g2 with
  | some (t, h), some (t2, _) => t + h ≤ t2
  | _, _ => True

/-- A concrete operation sequence exercising direct zoom, a bounds change
and a further zoom step. -/
def c9ops : List ZoomOp :=
  [ZoomOp.opSetZoom 50, ZoomOp.opSetLimits (1/2) 2, ZoomOp.opZoomIn]

/-! ## Helper lemmas about the ZoomController model -/

theorem applyZoom_fst_zoom (s : ZoomState) (z : ℚ) (m : ZoomMode) :
    (applyZoom s z m).1.zoom = clampZoom s z := by
  simp only [applyZoom]
  by_cases h : clampZoom s z ≠ s.zoom ∨ m ≠ s.mode
  · rw [if_pos h]
  · rw [if_neg h]
    push_neg at h
    exact h.1.symm

theorem applyZoom_fst_mode (s : ZoomState) (z : ℚ) (m : ZoomMode) :
    (applyZoom s z m).1.mode = m := by
  simp only [applyZoom]
  by_cases h : clampZoom s z ≠ s.zoom ∨ m ≠ s.mode
  · rw [if_pos h]
  · rw [if_neg h]
    push_neg at h
    exact h.2.symm

theorem applyZoom_fst_minZ (s : ZoomState) (z : ℚ) (m : ZoomMode) :
    (applyZoom s z m).1.minZ = s.minZ := by
  simp only [applyZoom]
  by_cases h : clampZoom s z ≠ s.zoom ∨ m ≠ s.mode
  · rw [if_pos h]
  · rw [if_neg h]

theorem applyZoom_fst_maxZ (s : ZoomState) (z : ℚ) (m : ZoomMode) :
    (applyZoom s z m).1.maxZ = s.maxZ := by
  simp only [applyZoom]
  by_cases h : clampZoom s z ≠ s.zoom ∨ m ≠ s.mode
  · rw [if_pos h]
  · rw [if_neg h]

theorem applyZoom_snd_none_iff (s : ZoomState) (z : ℚ) (m : ZoomMode) :
    (applyZoom s z m).2 = none ↔ (clampZoom s z = s.zoom ∧ m = s.mode) := by
  simp only [applyZoom]
  by_cases h : clampZoom s z ≠ s.zoom ∨ m ≠ s.mode
  · rw [if_pos h]
    constructor
    · intro hc
      exact absurd hc (by simp)
    · intro hc
      rcases h with h | h
      · exact absurd hc.1 h
      · exact absurd hc.2 h
  · rw [if_neg h]
    push_neg at h
    simp only [true_iff]
    exact h

theorem applyZoom_snd_some (s : ZoomState) (z : ℚ) (m : ZoomMode)
    (p : ℚ × ZoomMode) (hp : (applyZoom s z m).2 = some p) :
    p = (clampZoom s z, m) := by
  simp only [applyZoom] at hp
  by_cases h : clampZoom s z ≠ s.zoom ∨ m ≠ s.mode
  · rw [if_pos h] at hp
    exact (Option.some_inj.mp hp).symm
  · rw [if_neg h] at hp
    exact absurd hp (by simp)

theorem clampRange_mem (lo hi z : ℚ) (h : lo ≤ hi) :
    lo ≤ clampRange lo hi z ∧ clampRange lo hi z ≤ hi := by
  unfold clampRange
  by_cases h1 : z < lo
  · simp [h1, h]
  · by_cases h2 : hi < z
    · simp [h1, h2, h]
    · push_neg at h1 h2
      simp [not_lt.mpr h1, not_lt.mpr h2, h1, h2]

theorem clampRange_le_of_le (lo hi z w : ℚ) (hlo : lo ≤ w) (hz : z ≤ w) :
    clampRange lo hi z ≤ w := by
  unfold clampRange
  by_cases h1 : z < lo
  · simpa [h1] using hlo
  · by_cases h2 : hi < z
    · simp only [h1, if_false, h2, if_true]
      exact le_trans (le_of_lt h2) hz
    · simpa [h1, h2] using hz

theorem clampRange_idem (lo hi z : ℚ) (h : lo ≤ hi) :
    clampRange lo hi (clampRange lo hi z) = clampRange lo hi z := by
  unfold clampRange
  by_cases h1 : z < lo
  · simp [h1, not_lt.mpr h, lt_irrefl]
  · by_cases h2 : hi < z
    · simp [h1, h2, not_lt.mpr h, lt_irrefl]
    · simp [h1, h2]

theorem clampRange_eq_self (lo hi z : ℚ) (h1 : lo ≤ z) (h2 : z ≤ hi) :
    clampRange lo hi z = z := by
  unfold clampRange
  simp [not_lt.mpr h1, not_lt.mpr h2]

theorem applyZoom_valid (s : ZoomState) (z : ℚ) (m : ZoomMode)
    (h : s.minZ ≤ s.maxZ) : zoomValid (applyZoom s z m).1 := by
  have hz := applyZoom_fst_zoom s z m
  have hmin := applyZoom_fst_minZ s z m
  have hmax := applyZoom_fst_maxZ s z m
  have hc := clampRange_mem s.minZ s.maxZ z h
  exact ⟨by rw [hmin, hmax]; exact h,
         by rw [hmin, hz]; exact hc.1,
         by rw [hmax, hz]; exact hc.2⟩

theorem setLimits_valid (s : ZoomState) (a b : ℚ) (hab : a ≤ b) :
    zoomValid (setLimits s a b).1 := by
  simp only [setLimits]
  by_cases h : clampZoom { s with minZ := a, maxZ := b } s.zoom ≠ s.zoom
  · rw [if_pos h]
    exact applyZoom_valid _ _ _ hab
  · nth_rewrite 1 [if_neg h]
    push_neg at h
    have hc := clampRange_mem a b s.zoom hab
    rw [clampZoom] at h
    exact ⟨hab, h ▸ hc.1, h ▸ hc.2⟩

theorem stepZoom_valid (s : ZoomState) (op : ZoomOp) (hs : zoomValid s)
    (hop : ∀ a b, op = ZoomOp.opSetLimits a b → a ≤ b) :
    zoomValid (stepZoom s op) := by
  cases op with
  | opSetZoom f => exact applyZoom_valid s f ZoomMode.Free hs.1
  | opZoomIn => exact applyZoom_valid s _ ZoomMode.Free hs.1
  | opZoomOut => exact applyZoom_valid s _ ZoomMode.Free hs.1
  | opResetZoom => exact applyZoom_valid s _ ZoomMode.Free hs.1
  | opFitToWidth vp pg => exact applyZoom_valid s _ ZoomMode.FitWidth hs.1
  | opFitToPage vp pg => exact applyZoom_valid s _ ZoomMode.FitPage hs.1
  | opViewportResize vp pg =>
    show zoomValid (onViewportResize s vp pg).1
    unfold onViewportResize
    cases hm : s.mode with
    | FitWidth => exact applyZoom_valid s _ ZoomMode.FitWidth hs.1
    | FitPage => exact applyZoom_valid s _ ZoomMode.FitPage hs.1
    | Free => exact hs
  | opSetLimits a b => exact setLimits_valid s a b (hop a b rfl)

theorem foldZoom_valid (ops : List ZoomOp) (s : ZoomState) (hs : zoomValid s)
    (hops : ∀ a b, ZoomOp.opSetLimits a b ∈ ops → a ≤ b) :
    zoomValid (ops.foldl stepZoom s) := by
  induction ops generalizing s with
  | nil => simpa using hs
  | cons op rest ih =>
    simp only [List.foldl_cons]
    refine ih (stepZoom s op) ?_ ?_
    · exact stepZoom_valid s op hs (fun a b hab => hops a b (hab ▸ List.mem_cons_self op rest))
    · exact fun a b hmem => hops a b (List.mem_cons_of_mem op hmem)

theorem initZoomState_valid : zoomValid initZoomState := by
  refine ⟨?_, ?_, ?_⟩ <;> norm_num [initZoomState, DEFAULT_ZOOM, MIN_ZOOM_DEFAULT, MAX_ZOOM_DEFAULT]

theorem calculateFitWidth_degenerate (s : ZoomState) (vp : ViewportInfo) (pg : PageInfo)
    (h : pg.width ≤ 0 ∨ vp.width - vp.marginsH ≤ 0) :
    calculateFitWidth s vp pg = s.zoom := by
  simp only [calculateFitWidth]
  by_cases h1 : pg.width ≤ 0
  · rw [if_pos h1]
  · rw [if_neg h1]
    rcases h with h | h
    · exact absurd h h1
    · rw [if_pos h]

theorem calculateFitPage_degenerate (s : ZoomState) (vp : ViewportInfo) (pg : PageInfo)
    (h : pg.width ≤ 0 ∨ pg.height ≤ 0 ∨ vp.width - vp.marginsH ≤ 0 ∨
         vp.height - vp.marginsV ≤ 0) :
    calculateFitPage s vp pg = s.zoom := by
  simp only [calculateFitPage]
  by_cases h1 : pg.width ≤ 0 ∨ pg.height ≤ 0
  · rw [if_pos h1]
  · rw [if_neg h1]
    push_neg at h1
    rcases h with h | h | h | h
    · exact absurd h (not_le.mpr h1.1)
    · exact absurd h (not_le.mpr h1.2)
    · rw [if_pos (Or.inl h)]
    · rw [if_pos (Or.inr h)]

theorem calculateFitPage_nondegenerate (s : ZoomState) (vp : ViewportInfo) (pg : PageInfo)
    (hw : 0 < pg.width) (hh : 0 < pg.height)
    (haw : 0 < vp.width - vp.marginsH) (hah : 0 < vp.height - vp.marginsV) :
    calculateFitPage s vp pg =
      min (((vp.width - vp.marginsH : Int) : ℚ) / (pg.width : ℚ))
          (((vp.height - vp.marginsV : Int) : ℚ) / (pg.height : ℚ)) := by
  simp only [calculateFitPage]
  rw [if_neg (by push_neg; exact ⟨hw, hh⟩)]
  rw [if_neg (by push_neg; exact ⟨haw, hah⟩)]

/-! ## Claim theorems: ZoomController -/

/-- Claim C5: after `setZoom(f)` the stored factor equals
`clamp(f, minZoom, maxZoom)` and the mode is Free; a `zoomChanged`
notification carrying the new `(factor, mode)` pair is emitted exactly when
the clamped factor or the mode differs from the state before the call, and
otherwise the call is an exact no-op on the state. -/
theorem claim_C5_setZoom_contract (s : ZoomState) (f : ℚ) :
    (setZoom s f).1.zoom = clampZoom s f ∧
    (setZoom s f).1.mode = ZoomMode.Free ∧
    ((setZoom s f).2 = none ↔ (clampZoom s f = s.zoom ∧ s.mode = ZoomMode.Free)) ∧
    (∀ p, (setZoom s f).2 = some p → p = (clampZoom s f, ZoomMode.Free)) ∧
    ((clampZoom s f = s.zoom ∧ s.mode = ZoomMode.Free) → (setZoom s f).1 = s) := by
  refine ⟨applyZoom_fst_zoom s f ZoomMode.Free,
          applyZoom_fst_mode s f ZoomMode.Free, ?_, ?_, ?_⟩
  · rw [setZoom, applyZoom_snd_none_iff]
    constructor
    · intro h
      exact ⟨h.1, h.2.symm⟩
    · intro h
      exact ⟨h.1, h.2.symm⟩
  · intro p hp
    exact applyZoom_snd_some s f ZoomMode.Free p hp
  · intro h
    show (applyZoom s f ZoomMode.Free).1 = s
    simp only [applyZoom]
    rw [if_neg]
    push_neg
    exact ⟨h.1, h.2.symm⟩

/-- Witness for C5 at concrete inputs: setting zoom 3 from the initial state
stores clamp(3) = 3, emits `(3, Free)`, and setting zoom 1 again is a no-op. -/
theorem claim_C5_witness :
    (setZoom initZoomState 3).1.zoom = clampZoom initZoomState 3 ∧
    ((3 : ℚ), ZoomMode.Free) = (clampZoom initZoomState 3, ZoomMode.Free) ∧
    (setZoom initZoomState 1).1 = initZoomState := by
  have h3 := claim_C5_setZoom_contract initZoomState 3
  have h1 := claim_C5_setZoom_contract initZoomState 1
  exact ⟨h3.1,
         h3.2.2.2.1 ((3 : ℚ), ZoomMode.Free)
           (by norm_num [setZoom, applyZoom, clampZoom, clampRange, initZoomState,
                 MIN_ZOOM_DEFAULT, MAX_ZOOM_DEFAULT, DEFAULT_ZOOM]),
         h1.2.2.2.2
           (by norm_num [clampZoom, clampRange, initZoomState,
                 MIN_ZOOM_DEFAULT, MAX_ZOOM_DEFAULT, DEFAULT_ZOOM])⟩

/-- Claim C7 fails on the code: with the default bounds (minZoom = 1/4) a
100×200 viewport and a 1000×1000 page give width ratio 1/10 and height
ratio 1/5, but applyZoom clamps the computed min ratio up to 1/4, so the
stored factor exceeds both fit ratios. -/
theorem claim_C7_counterexample :
    (0 : Int) < zcPageSquare.width ∧ (0 : Int) < zcPageSquare.height ∧
    (0 : Int) < zcVp.width - zcVp.marginsH ∧ (0 : Int) < zcVp.height - zcVp.marginsV ∧
    ¬((fitToPage initZoomState zcVp zcPageSquare).1.zoom ≤
        ((zcVp.width - zcVp.marginsH : Int) : ℚ) / ((zcPageSquare.width : Int) : ℚ) ∧
      (fitToPage initZoomState zcVp zcPageSquare).1.zoom ≤
        ((zcVp.height - zcVp.marginsV : Int) : ℚ) / ((zcPageSquare.height : Int) : ℚ)) := by
  refine ⟨by decide, by decide, by decide, by decide, ?_⟩
  norm_num [fitToPage, applyZoom, calculateFitPage, clampZoom, clampRange,
    initZoomState, zcVp, zcPageSquare, MIN_ZOOM_DEFAULT, MAX_ZOOM_DEFAULT, DEFAULT_ZOOM]

/-- Claim C7 amended: for non-degenerate inputs the factor stored after
`fitToPage` equals the clamp of `min(widthRatio, heightRatio)`, so it is at
most both fit ratios whenever the lower zoom bound does not exceed them
(the clamp to `minZoom` is the only way it can exceed a ratio). -/
theorem claim_C7_fitPage_le_ratios (s : ZoomState) (vp : ViewportInfo) (pg : PageInfo)
    (hw : 0 < pg.width) (hh : 0 < pg.height)
    (haw : 0 < vp.width - vp.marginsH) (hah : 0 < vp.height - vp.marginsV)
    (hminW : s.minZ ≤ ((vp.width - vp.marginsH : Int) : ℚ) / (pg.width : ℚ))
    (hminH : s.minZ ≤ ((vp.height - vp.marginsV : Int) : ℚ) / (pg.height : ℚ)) :
    (fitToPage s vp pg).1.zoom ≤
      ((vp.width - vp.marginsH : Int) : ℚ) / (pg.width : ℚ) ∧
    (fitToPage s vp pg).1.zoom ≤
      ((vp.height - vp.marginsV : Int) : ℚ) / (pg.height : ℚ) := by
  have hz : (fitToPage s vp pg).1.zoom = clampZoom s (calculateFitPage s vp pg) :=
    applyZoom_fst_zoom s _ ZoomMode.FitPage
  rw [hz, calculateFitPage_nondegenerate s vp pg hw hh haw hah, clampZoom]
  constructor
  · exact clampRange_le_of_le _ _ _ _ hminW (min_le_left _ _)
  · exact clampRange_le_of_le _ _ _ _ hminH (min_le_right _ _)

/-- Witness for the amended C7 at concrete inputs: with lower bound 1/20,
a 100×200 viewport and a 1000×1000 page, the stored factor is at most both
ratios 1/10 and 1/5. -/
theorem claim_C7_witness :
    (fitToPage zcSmallMin zcVp zcPageSquare).1.zoom ≤
      ((zcVp.width - zcVp.marginsH : Int) : ℚ) / ((zcPageSquare.width : Int) : ℚ) ∧
    (fitToPage zcSmallMin zcVp zcPageSquare).1.zoom ≤
      ((zcVp.height - zcVp.marginsV : Int) : ℚ) / ((zcPageSquare.height : Int) : ℚ) :=
  claim_C7_fitPage_le_ratios zcSmallMin zcVp zcPageSquare
    (by decide) (by decide) (by decide) (by decide)
    (by norm_num [zcSmallMin, zcVp, zcPageSquare])
    (by norm_num [zcSmallMin, zcVp, zcPageSquare])

/-- Claim C8 fails on the code: on a degenerate page (width 0) the fit
computation does return the previous factor, but `fitToWidth` still passes
mode FitWidth to applyZoom, so from mode Free the stored mode changes and a
notification is emitted. -/
theorem claim_C8_counterexample :
    zcPageZeroW.width ≤ 0 ∧
    (fitToWidth initZoomState zcVp zcPageZeroW).1.mode ≠ initZoomState.mode ∧
    (fitToWidth initZoomState zcVp zcPageZeroW).2 ≠ none := by
  refine ⟨by decide, ?_, ?_⟩
  · norm_num [fitToWidth, applyZoom, calculateFitWidth, clampZoom, clampRange,
      initZoomState, zcVp, zcPageZeroW, MIN_ZOOM_DEFAULT, MAX_ZOOM_DEFAULT, DEFAULT_ZOOM]
    decide
  · norm_num [fitToWidth, applyZoom, calculateFitWidth, clampZoom, clampRange,
      initZoomState, zcVp, zcPageZeroW, MIN_ZOOM_DEFAULT, MAX_ZOOM_DEFAULT, DEFAULT_ZOOM]
    decide

/-- Claim C8 amended: on degenerate geometry inputs, and with the current
factor within bounds, `fitToWidth` and `fitToPage` leave the stored factor
unchanged and perform no division; but the mode is still set to the
respective fit mode, and a change notification is emitted exactly when the
mode differed before the call. -/
theorem claim_C8_degenerate_guard (s : ZoomState) (vp : ViewportInfo) (pg : PageInfo)
    (hin : s.minZ ≤ s.zoom ∧ s.zoom ≤ s.maxZ) :
    ((pg.width ≤ 0 ∨ vp.width - vp.marginsH ≤ 0) →
      (fitToWidth s vp pg).1.zoom = s.zoom ∧
      (fitToWidth s vp pg).1.mode = ZoomMode.FitWidth ∧
      ((fitToWidth s vp pg).2 = none ↔ s.mode = ZoomMode.FitWidth)) ∧
    ((pg.width ≤ 0 ∨ pg.height ≤ 0 ∨ vp.width - vp.marginsH ≤ 0 ∨
        vp.height - vp.marginsV ≤ 0) →
      (fitToPage s vp pg).1.zoom = s.zoom ∧
      (fitToPage s vp pg).1.mode = ZoomMode.FitPage ∧
      ((fitToPage s vp pg).2 = none ↔ s.mode = ZoomMode.FitPage)) := by
  have hclamp : clampZoom s s.zoom = s.zoom := clampRange_eq_self _ _ _ hin.1 hin.2
  constructor
  · intro hdeg
    have hcalc := calculateFitWidth_degenerate s vp pg hdeg
    refine ⟨?_, applyZoom_fst_mode s _ ZoomMode.FitWidth, ?_⟩
    · rw [show (fitToWidth s vp pg).1.zoom = clampZoom s (calculateFitWidth s vp pg) from
        applyZoom_fst_zoom s _ ZoomMode.FitWidth, hcalc, hclamp]
    · rw [fitToWidth, applyZoom_snd_none_iff, hcalc, hclamp]
      constructor
      · intro h
        exact h.2.symm
      · intro h
        exact ⟨rfl, h.symm⟩
  · intro hdeg
    have hcalc := calculateFitPage_degenerate s vp pg hdeg
    refine ⟨?_, applyZoom_fst_mode s _ ZoomMode.FitPage, ?_⟩
    · rw [show (fitToPage s vp pg).1.zoom = clampZoom s (calculateFitPage s vp pg) from
        applyZoom_fst_zoom s _ ZoomMode.FitPage, hcalc, hclamp]
    · rw [fitToPage, applyZoom_snd_none_iff, hcalc, hclamp]
      constructor
      · intro h
        exact h.2.symm
      · intro h
        exact ⟨rfl, h.symm⟩

/-- Witness for the amended C8 at concrete inputs: a zero-width page keeps
the factor at 1 for both fit operations, and the emission condition reduces
to the mode comparison. -/
theorem claim_C8_witness :
    (fitToWidth initZoomState zcVp zcPageZeroW).1.zoom = initZoomState.zoom ∧
    ((fitToPage initZoomState zcVp zcPageZeroW).2 = none ↔
      initZoomState.mode = ZoomMode.FitPage) := by
  have h := claim_C8_degenerate_guard initZoomState zcVp zcPageZeroW
    (by norm_num [initZoomState, MIN_ZOOM_DEFAULT, MAX_ZOOM_DEFAULT, DEFAULT_ZOOM])
  exact ⟨(h.1 (Or.inl (by decide))).1, (h.2 (Or.inl (by decide))).2.2⟩

/-- Claim C9: assuming every setLimits call in the sequence has ordered
bounds, the stored factor stays within `[minZoom, maxZoom]` after any
sequence of ZoomController operations started from the constructor state;
and setLimits with the current factor outside the new bounds re-clamps it
and re-emits a change notification. -/
theorem claim_C9_zoom_invariant (ops : List ZoomOp)
    (hops : ∀ a b, ZoomOp.opSetLimits a b ∈ ops → a ≤ b) :
    ((ops.foldl stepZoom initZoomState).minZ ≤ (ops.foldl stepZoom initZoomState).zoom ∧
     (ops.foldl stepZoom initZoomState).zoom ≤ (ops.foldl stepZoom initZoomState).maxZ) ∧
    (∀ s a b, zoomValid s → a ≤ b → (s.zoom < a ∨ b < s.zoom) →
      (setLimits s a b).1.zoom = clampRange a b s.zoom ∧
      (setLimits s a b).2 ≠ none) := by
  constructor
  · exact (foldZoom_valid ops initZoomState initZoomState_valid hops).2
  · intro s a b hv hab hout
    have hne : clampRange a b s.zoom ≠ s.zoom := by
      rcases hout with h | h
      · unfold clampRange
        rw [if_pos h]
        exact ne_of_gt h
      · by_cases h1 : s.zoom < a
        · unfold clampRange
          rw [if_pos h1]
          exact ne_of_gt h1
        · unfold clampRange
          rw [if_neg h1, if_pos h]
          exact ne_of_lt h
    have hs1 : clampZoom { s with minZ := a, maxZ := b } s.zoom = clampRange a b s.zoom := rfl
    simp only [setLimits, hs1]
    rw [if_pos hne]
    have hidem : clampZoom { s with minZ := a, maxZ := b } (clampRange a b s.zoom) =
        clampRange a b s.zoom := by
      show clampRange a b (clampRange a b s.zoom) = clampRange a b s.zoom
      exact clampRange_idem a b s.zoom hab
    constructor
    · rw [applyZoom_fst_zoom, hidem]
    · intro hn
      rw [applyZoom_snd_none_iff, hidem] at hn
      exact hne hn.1
/-- Witness for C9: a concrete sequence (zoom to 50, shrink the bounds to
[1/2, 2], zoom in) keeps the factor within the final bounds, and a
setLimits pushing the initial factor 1 below new bounds [2, 3] re-clamps
and emits. -/
theorem claim_C9_witness :
    ((c9ops.foldl stepZoom initZoomState).minZ ≤ (c9ops.foldl stepZoom initZoomState).zoom ∧
     (c9ops.foldl stepZoom initZoomState).zoom ≤ (c9ops.foldl stepZoom initZoomState).maxZ) ∧
    ((setLimits initZoomState 2 3).1.zoom = clampRange 2 3 initZoomState.zoom ∧
     (setLimits initZoomState 2 3).2 ≠ none) := by
  have h := claim_C9_zoom_invariant c9ops (by
    intro a b hmem
    simp only [c9ops, List.mem_cons, List.not_mem_nil, or_false] at hmem
    rcases hmem with h | h | h
    · exact absurd h (by simp)
    · rw [ZoomOp.opSetLimits.injEq] at h
      rw [h.1, h.2]
      norm_num
    · exact absurd h (by simp))
  refine ⟨h.1, h.2 initZoomState 2 3 initZoomState_valid (by norm_num) ?_⟩
  left
  norm_num [initZoomState, DEFAULT_ZOOM]

/-! ## Claim theorems: PDFPage rendering -/

/-- Claim C1 fails on the code: a slot that is Rendered with
`m_lastDpi = -1 ≠ 300` is still a complete no-op under `render(300)` — no
rasterization happens and the state is unchanged — although the claim
requires a re-rasterization at the new resolution. -/
theorem claim_C1_counterexample :
    sRendered.isRendered = true ∧ sRendered.lastDpi ≠ 300 ∧
    (PDFPage.render (fun _ => true) sRendered 300).1 = sRendered ∧
    (PDFPage.render (fun _ => true) sRendered 300).2 = 0 := by
  decide

/-- Claim C1 amended: `render` is a no-op (state unchanged, zero
rasterization calls) exactly when the slot has no page or is already
Rendered, regardless of the requested resolution; the idempotence half of
the claim holds: a fresh slot whose rasterization succeeds rasterizes once
on the first call and zero times on any repeated call, at the same or any
other resolution. -/
theorem claim_C1_render_noop_iff (raster : Int → Bool) (s : PageState) (dpi dpi2 : Int) :
    (((PDFPage.render raster s dpi).1 = s ∧ (PDFPage.render raster s dpi).2 = 0) ↔
      (s.hasPage = false ∨ s.isRendered = true)) ∧
    (s.hasPage = true → s.isRendered = false → raster dpi = true →
      (PDFPage.render raster s dpi).2 = 1 ∧
      (PDFPage.render raster ((PDFPage.render raster s dpi).1) dpi2).2 = 0) := by
  constructor
  · constructor
    · intro hno
      by_cases hp : s.hasPage = false
      · exact Or.inl hp
      · by_cases hr : s.isRendered = true
        · exact Or.inr hr
        · have hone : (PDFPage.render raster s dpi).2 = 1 := by
            simp only [PDFPage.render, hp, if_false, hr]
            by_cases hra : raster dpi = true <;> simp [hra]
          rw [hone] at hno
          exact absurd hno.2 one_ne_zero
    · intro h
      rcases h with hp | hr
      · simp [PDFPage.render, hp]
      · by_cases hp : s.hasPage = false
        · simp [PDFPage.render, hp]
        · simp [PDFPage.render, hp, hr]
  · intro hp hr hra
    have h1 : PDFPage.render raster s dpi =
        ({ s with image := some dpi, isRendered := true }, 1) := by
      simp [PDFPage.render, hp, hr, hra]
    rw [h1]
    exact ⟨rfl, by simp [PDFPage.render, hp]⟩

/-- Witness for the amended C1 at concrete inputs: a fresh slot with a
successful rasterizer is not a no-op, rasterizes once at 150 DPI and zero
further times when re-requested at 300 DPI. -/
theorem claim_C1_witness :
    (((PDFPage.render (fun _ => true) sFresh 150).1 = sFresh ∧
      (PDFPage.render (fun _ => true) sFresh 150).2 = 0) ↔
      (sFresh.hasPage = false ∨ sFresh.isRendered = true)) ∧
    ((PDFPage.render (fun _ => true) sFresh 150).2 = 1 ∧
     (PDFPage.render (fun _ => true)
        ((PDFPage.render (fun _ => true) sFresh 150).1) 300).2 = 0) := by
  have h := claim_C1_render_noop_iff (fun _ => true) sFresh 150 300
  exact ⟨h.1, h.2 (by decide) (by decide) (by decide)⟩

/-! ## Claim theorems: document opening -/

theorem renderPageAt_slots_length (raster : Int → Bool) (pm : PageManagerState)
    (i dpi : Int) : (renderPageAt raster pm i dpi).1.slots.length = pm.slots.length := by
  simp only [renderPageAt]
  cases h : pageAt pm i with
  | none => rfl
  | some s => simp [List.length_set]

theorem renderPageAt_contentWidget (raster : Int → Bool) (pm : PageManagerState)
    (i dpi : Int) : (renderPageAt raster pm i dpi).1.contentWidget = pm.contentWidget := by
  simp only [renderPageAt]
  cases h : pageAt pm i with
  | none => rfl
  | some s => rfl

theorem foldRender_slots_length (raster : Int → Bool) (dpi : Int)
    (idxs : List Int) (pm : PageManagerState) :
    (idxs.foldl (fun acc i => (renderPageAt raster acc i dpi).1) pm).slots.length =
      pm.slots.length := by
  induction idxs generalizing pm with
  | nil => rfl
  | cons i rest ih =>
    rw [List.foldl_cons, ih, renderPageAt_slots_length]

theorem foldRender_contentWidget (raster : Int → Bool) (dpi : Int)
    (idxs : List Int) (pm : PageManagerState) :
    (idxs.foldl (fun acc i => (renderPageAt raster acc i dpi).1) pm).contentWidget =
      pm.contentWidget := by
  induction idxs generalizing pm with
  | nil => rfl
  | cons i rest ih =>
    rw [List.foldl_cons, ih, renderPageAt_contentWidget]

theorem preRenderInitialPages_slots_length (raster : Int → Bool)
    (pm : PageManagerState) (count dpi : Int) :
    (preRenderInitialPages raster pm count dpi).slots.length = pm.slots.length := by
  simp only [preRenderInitialPages]
  by_cases h : pm.hasDocument = false
  · rw [if_pos h]
  · rw [if_neg h]
    exact foldRender_slots_length raster dpi _ pm

theorem preRenderInitialPages_contentWidget (raster : Int → Bool)
    (pm : PageManagerState) (count dpi : Int) :
    (preRenderInitialPages raster pm count dpi).contentWidget = pm.contentWidget := by
  simp only [preRenderInitialPages]
  by_cases h : pm.hasDocument = false
  · rw [if_pos h]
  · rw [if_neg h]
    exact foldRender_contentWidget raster dpi _ pm

/-- Claim C6 fails on the code: a loaded document reporting zero pages is
accepted — `setDocument` returns success, builds the content layout and
creates zero slots — although the claim requires a failure no-op. -/
theorem claim_C6_counterexample :
    zeroPageDoc.pageCount = 0 ∧
    (setDocument (fun _ => true) emptyViewer (some zeroPageDoc)).2 = true ∧
    (setDocument (fun _ => true) emptyViewer (some zeroPageDoc)).1.pm.contentWidget = true ∧
    (setDocument (fun _ => true) emptyViewer (some zeroPageDoc)).1.pm.slots = [] := by
  refine ⟨by decide, ?_, ?_, ?_⟩ <;>
    norm_num [setDocument, clearDocument, buildPages, preRenderInitialPages,
      initPageManager, intRangeIncl, zeroPageDoc, emptyViewer,
      PDFDoc.isLoaded, PDFDoc.pageCount]

/-- Claim C6 amended: `open(document)` fails (returns failure and is a
no-op) exactly when the document is null or not loaded; any loaded
document — including one reporting zero pages — is accepted: the call
returns success, builds the content layout, and creates exactly
`pageCount` slots (zero of them for a zero-page document). -/
theorem claim_C6_setDocument_fails_iff (raster : Int → Bool) (v : ViewerState)
    (doc : Option PDFDoc) :
    (doc = none →
      (setDocument raster v doc).2 = false ∧ (setDocument raster v doc).1 = v) ∧
    (∀ d, doc = some d → d.isLoaded = false →
      (setDocument raster v doc).2 = false ∧ (setDocument raster v doc).1 = v) ∧
    (∀ d, doc = some d → d.isLoaded = true →
      (setDocument raster v doc).2 = true ∧
      (setDocument raster v doc).1.pm.contentWidget = true ∧
      (setDocument raster v doc).1.pm.slots.length = d.pageCount) := by
  refine ⟨?_, ?_, ?_⟩
  · intro h
    subst h
    exact ⟨rfl, rfl⟩
  · intro d hd hl
    subst hd
    simp only [setDocument]
    rw [if_pos hl]
    exact ⟨rfl, rfl⟩
  · intro d hd hl
    subst hd
    simp only [setDocument]
    rw [if_neg (by rw [hl]; decide)]
    refine ⟨rfl, ?_, ?_⟩
    · show (preRenderInitialPages raster (buildPages initPageManager (some d)) 5 _).contentWidget = true
      rw [preRenderInitialPages_contentWidget]
      simp only [buildPages]
      rw [if_neg (by rw [hl]; decide)]
    · show (preRenderInitialPages raster (buildPages initPageManager (some d)) 5 _).slots.length = d.pageCount
      rw [preRenderInitialPages_slots_length]
      simp only [buildPages]
      rw [if_neg (by rw [hl]; decide)]
      simp

/-- Witness for the amended C6 at concrete inputs: a loaded three-page
document is accepted with three slots and a layout; a null document fails. -/
theorem claim_C6_witness :
    (setDocument (fun _ => true) emptyViewer
        (some ({ loaded := true, numPages := 3 } : PDFDoc))).2 = true ∧
    (setDocument (fun _ => true) emptyViewer
        (some ({ loaded := true, numPages := 3 } : PDFDoc))).1.pm.slots.length =
      ({ loaded := true, numPages := 3 } : PDFDoc).pageCount ∧
    (setDocument (fun _ => true) emptyViewer none).2 = false := by
  have h := claim_C6_setDocument_fails_iff (fun _ => true) emptyViewer
    (some ({ loaded := true, numPages := 3 } : PDFDoc))
  have h0 := claim_C6_setDocument_fails_iff (fun _ => true) emptyViewer none
  exact ⟨(h.2.2 _ rfl rfl).1, (h.2.2 _ rfl rfl).2.2, (h0.1 rfl).1⟩

/-! ## Helper lemmas about the navigation model -/

theorem containsCenter_getD_lt (geoms : List (Option (Int × Int))) (c : Int) (j : Nat)
    (h : containsCenter (geoms.getD j none) c = true) : j < geoms.length := by
  by_contra hj
  push_neg at hj
  rw [List.getD_eq_default _ _ hj] at h
  simp [containsCenter] at h

theorem findPageAt_spec (geoms : List (Option (Int × Int))) (c : Int) (j : Nat)
    (h : findPageAt geoms c = some j) :
    containsCenter (geoms.getD j none) c = true ∧
    ∀ k, k < j → containsCenter (geoms.getD k none) c = false := by
  induction geoms generalizing j with
  | nil => exact absurd h (by simp [findPageAt])
  | cons g rest ih =>
    rw [findPageAt] at h
    by_cases hg : containsCenter g c = true
    · rw [if_pos hg] at h
      have hj : j = 0 := (Option.some_inj.mp h).symm
      subst hj
      exact ⟨hg, fun k hk => absurd hk (Nat.not_lt_zero k)⟩
    · rw [if_neg hg] at h
      rcases Option.map_eq_some'.mp h with ⟨j2, hj2, hj⟩
      subst hj
      rcases ih j2 hj2 with ⟨hcont, hmin⟩
      refine ⟨hcont, ?_⟩
      intro k hk
      cases k with
      | zero =>
        simpa using (Bool.not_eq_true _).mp hg
      | succ k2 =>
        exact hmin k2 (Nat.lt_of_succ_lt_succ hk)

theorem findPageAt_of_contains (geoms : List (Option (Int × Int))) (c : Int) (j : Nat)
    (h : containsCenter (geoms.getD j none) c = true) :
    ∃ i, findPageAt geoms c = some i ∧ i ≤ j := by
  induction geoms generalizing j with
  | nil =>
    exact absurd (containsCenter_getD_lt [] c j h) (by simp)
  | cons g rest ih =>
    by_cases hg : containsCenter g c = true
    · exact ⟨0, by rw [findPageAt, if_pos hg], Nat.zero_le j⟩
    · cases j with
      | zero =>
        rw [List.getD_cons_zero] at h
        exact absurd h hg
      | succ j2 =>
        rw [List.getD_cons_succ] at h
        rcases ih j2 h with ⟨i2, hi2, hle⟩
        exact ⟨i2 + 1, by rw [findPageAt, if_neg hg, hi2, Option.map_some'],
               Nat.succ_le_succ hle⟩

theorem findPageAt_none_iff (geoms : List (Option (Int × Int))) (c : Int) :
    findPageAt geoms c = none ↔
    ∀ j, containsCenter (geoms.getD j none) c = false := by
  constructor
  · intro h j
    by_contra hc
    rw [Bool.not_eq_false] at hc
    rcases findPageAt_of_contains geoms c j hc with ⟨i, hi, _⟩
    rw [h] at hi
    exact Option.noConfusion hi
  · intro h
    cases hf : findPageAt geoms c with
    | none => rfl
    | some j =>
      have := (findPageAt_spec geoms c j hf).1
      rw [h j] at this
      exact Bool.noConfusion this

theorem findPageAt_mono (geoms : List (Option (Int × Int))) (c1 c2 : Int)
    (hsort : geoms.Pairwise geomBefore) (hc : c1 ≤ c2) (i1 i2 : Nat)
    (h1 : findPageAt geoms c1 = some i1) (h2 : findPageAt geoms c2 = some i2) :
    i1 ≤ i2 := by
  by_contra hgt
  push_neg at hgt
  rcases findPageAt_spec geoms c1 i1 h1 with ⟨hcont1, hmin1⟩
  rcases findPageAt_spec geoms c2 i2 h2 with ⟨hcont2, _⟩
  have hlen1 := containsCenter_getD_lt geoms c1 i1 hcont1
  have hlen2 := containsCenter_getD_lt geoms c2 i2 hcont2
  have hbefore : geomBefore (geoms.getD i2 none) (geoms.getD i1 none) := by
    rw [List.getD_eq_getElem _ _ hlen2, List.getD_eq_getElem _ _ hlen1]
    exact List.pairwise_iff_get.mp hsort ⟨i2, hlen2⟩ ⟨i1, hlen1⟩ hgt
  cases hg2 : geoms.getD i2 none with
  | none => rw [hg2] at hcont2; simp [containsCenter] at hcont2
  | some p2 =>
    cases hg1 : geoms.getD i1 none with
    | none => rw [hg1] at hcont1; simp [containsCenter] at hcont1
    | some p1 =>
      rcases p1 with ⟨t1, h1v⟩
      rcases p2 with ⟨t2, h2v⟩
      rw [hg2] at hcont2
      rw [hg1] at hcont1
      rw [hg1, hg2] at hbefore
      simp only [containsCenter, decide_eq_true_eq] at hcont1 hcont2
      have hb : t2 + h2v ≤ t1 := hbefore
      have hceq : c1 = c2 := le_antisymm hc (by linarith [hcont1.1, hcont2.2])
      have : containsCenter (geoms.getD i2 none) c1 = true := by
        rw [hg2]
        simp only [containsCenter, decide_eq_true_eq]
        rw [hceq]
        exact hcont2
      rw [hmin1 i2 hgt] at this
      exact Bool.noConfusion this

theorem updateCurrentPageFromScroll_fst (geoms : List (Option (Int × Int)))
    (s vh : Int) (cur : Nat) (hne : geoms ≠ []) :
    (updateCurrentPageFromScroll true geoms s vh cur).1 =
      (findPageAt geoms (s + Int.tdiv vh 2)).getD 0 := by
  unfold updateCurrentPageFromScroll
  rw [if_neg (by decide : ¬(true = false))]
  rw [if_neg (by simpa [List.length_eq_zero] using hne)]
  by_cases h : (findPageAt geoms (s + Int.tdiv vh 2)).getD 0 ≠ cur
  · rw [if_pos h]
  · rw [if_neg h]
    push_neg at h
    exact h.symm

/-! ## Claim theorems: navigation and visible-range rendering -/

/-- Claim C2 fails on the code: with the two-page layout and the current
page at index 1, a scroll whose viewport center (250) lies past the last
page matches no slot, yet `updateCurrentPageFromScroll` resets the current
page to 0 and emits a notification, instead of leaving it unchanged. -/
theorem claim_C2_counterexample :
    findPageAt twoPageLayout (240 + Int.tdiv 20 2) = none ∧
    (updateCurrentPageFromScroll true twoPageLayout 240 20 1).1 ≠ 1 ∧
    (updateCurrentPageFromScroll true twoPageLayout 240 20 1).2 = true := by
  decide

/-- Claim C2 amended: when no slot's span contains the viewport center, the
loop's initial value 0 survives, so `updateCurrentPageFromScroll` sets the
current page to 0 and emits a current-page-changed notification exactly
when the stored index was nonzero. -/
theorem claim_C2_center_in_no_slot (geoms : List (Option (Int × Int)))
    (s vh : Int) (cur : Nat) (hne : geoms ≠ [])
    (hnone : findPageAt geoms (s + Int.tdiv vh 2) = none) :
    (updateCurrentPageFromScroll true geoms s vh cur).1 = 0 ∧
    ((updateCurrentPageFromScroll true geoms s vh cur).2 = true ↔ cur ≠ 0) := by
  have hfst := updateCurrentPageFromScroll_fst geoms s vh cur hne
  rw [hnone] at hfst
  constructor
  · exact hfst
  · simp only [updateCurrentPageFromScroll]
    rw [if_neg (by decide : ¬(true = false))]
    rw [if_neg (by simpa [List.length_eq_zero] using hne)]
    rw [hnone]
    by_cases h : cur = 0
    · rw [h]
      simp
    · rw [if_pos (by simpa [Option.getD] using Ne.symm h)]
      simpa using h

/-- Witness for the amended C2 at concrete inputs: center 250 is past both
pages, so the current page drops from 1 to 0 with an emission. -/
theorem claim_C2_witness :
    (updateCurrentPageFromScroll true twoPageLayout 240 20 1).1 = 0 ∧
    ((updateCurrentPageFromScroll true twoPageLayout 240 20 1).2 = true ↔ (1 : Nat) ≠ 0) :=
  claim_C2_center_in_no_slot twoPageLayout 240 20 1 (by decide) (by decide)

/-- Claim C4 fails on the code: in the two-page layout (orderly, without
overlap) scroll 140 places the center inside page 1, while the larger
scroll 240 places it past every page, where the fallback index 0 wins: the
current page goes from 1 down to 0, so monotonicity fails. -/
theorem claim_C4_counterexample :
    twoPageLayout.Pairwise geomBefore ∧ (140 : Int) < 240 ∧
    (updateCurrentPageFromScroll true twoPageLayout 140 20 1).1 = 1 ∧
    (updateCurrentPageFromScroll true twoPageLayout 240 20 1).1 = 0 := by
  refine ⟨?_, by decide, by decide, by decide⟩
  simp only [twoPageLayout, List.pairwise_cons, List.mem_singleton, List.not_mem_nil,
    false_implies, implies_true, List.Pairwise.nil, and_true]
  intro g hg
  rw [hg]
  show (0 : Int) + 100 ≤ 110
  norm_num

/-- Claim C4 amended: `updateCurrentPageFromScroll` is monotone across two
scroll offsets provided each resulting viewport center actually lies in
some slot's span (the fallback to 0 for an uncontained center is the only
source of non-monotonicity): for s1 ≤ s2 against the same ordered
non-overlapping layout, the resulting index never decreases. -/
theorem claim_C4_scroll_monotone (geoms : List (Option (Int × Int)))
    (s1 s2 vh : Int) (cur1 cur2 : Nat)
    (hsort : geoms.Pairwise geomBefore) (hs : s1 ≤ s2)
    (h1 : (findPageAt geoms (s1 + Int.tdiv vh 2)).isSome = true)
    (h2 : (findPageAt geoms (s2 + Int.tdiv vh 2)).isSome = true) :
    (updateCurrentPageFromScroll true geoms s1 vh cur1).1 ≤
      (updateCurrentPageFromScroll true geoms s2 vh cur2).1 := by
  have hne : geoms ≠ [] := by
    intro h
    subst h
    simp [findPageAt] at h1
  rcases Option.isSome_iff_exists.mp h1 with ⟨i1, hi1⟩
  rcases Option.isSome_iff_exists.mp h2 with ⟨i2, hi2⟩
  rw [updateCurrentPageFromScroll_fst geoms s1 vh cur1 hne,
      updateCurrentPageFromScroll_fst geoms s2 vh cur2 hne, hi1, hi2]
  simp only [Option.getD_some]
  exact findPageAt_mono geoms _ _ hsort (by omega) i1 i2 hi1 hi2

/-- Witness for the amended C4 at concrete inputs: centers 50 and 150 lie
in pages 0 and 1 respectively, and the resulting indices are nondecreasing. -/
theorem claim_C4_witness :
    (updateCurrentPageFromScroll true twoPageLayout 40 20 0).1 ≤
      (updateCurrentPageFromScroll true twoPageLayout 140 20 0).1 :=
  claim_C4_scroll_monotone twoPageLayout 40 140 20 0 0
    (by
      simp only [twoPageLayout, List.pairwise_cons, List.mem_singleton, List.not_mem_nil,
        false_implies, implies_true, List.Pairwise.nil, and_true]
      intro g hg
      rw [hg]
      show (0 : Int) + 100 ≤ 110
      norm_num)
    (by norm_num) (by decide) (by decide)

theorem mem_intRangeIncl (a b i : Int) :
    i ∈ intRangeIncl a b ↔ a ≤ i ∧ i ≤ b := by
  unfold intRangeIncl
  constructor
  · intro h
    rcases List.mem_map.mp h with ⟨k, hk, rfl⟩
    rw [List.mem_range] at hk
    omega
  · intro h
    refine List.mem_map.mpr ⟨(i - a).toNat, ?_, ?_⟩
    · rw [List.mem_range]
      omega
    · omega

/-- Claim C3: `renderVisiblePages` requests a render for exactly the indices
in `[max(0, s/600 − b), min(pageCount−1, (s+h)/600 + b)]` (600 being the
constant average page height), and on a ten-page document with viewport 800,
buffer 2 and scroll 1200 it renders exactly slots 0 through 5. -/
theorem claim_C3_renderVisiblePages_range (raster : Int → Bool) (pm : PageManagerState)
    (scrollValue viewportHeight preRenderBuffer dpi : Int)
    (hdoc : pm.hasDocument = true) (hne : pm.slots ≠ []) :
    (∀ i : Int,
      (i ∈ (renderVisiblePages raster pm scrollValue viewportHeight preRenderBuffer dpi).2 ↔
        (max 0 (Int.tdiv scrollValue AVG_PAGE_HEIGHT - preRenderBuffer) ≤ i ∧
         i ≤ min ((pm.slots.length : Int) - 1)
              (Int.tdiv (scrollValue + viewportHeight) AVG_PAGE_HEIGHT + preRenderBuffer)))) ∧
    (renderVisiblePages (fun _ => true) pm10 1200 800 2 150).2 = [0, 1, 2, 3, 4, 5] := by
  constructor
  · intro i
    simp only [renderVisiblePages]
    rw [if_neg (by simp [hdoc, List.isEmpty_iff, hne])]
    exact mem_intRangeIncl _ _ i
  · decide

/-- Witness for C3 at concrete inputs: index 5 is rendered for the ten-page
document at scroll 1200, viewport 800, buffer 2, and the interval bounds
agree. -/
theorem claim_C3_witness :
    ((5 : Int) ∈ (renderVisiblePages (fun _ => true) pm10 1200 800 2 150).2 ↔
      (max 0 (Int.tdiv 1200 AVG_PAGE_HEIGHT - 2) ≤ 5 ∧
       5 ≤ min ((pm10.slots.length : Int) - 1)
            (Int.tdiv (1200 + 800) AVG_PAGE_HEIGHT + 2))) ∧
    (renderVisiblePages (fun _ => true) pm10 1200 800 2 150).2 = [0, 1, 2, 3, 4, 5] := by
  have h := claim_C3_renderVisiblePages_range (fun _ => true) pm10 1200 800 2 150
    (by decide) (by decide)
  exact ⟨h.1 5, h.2⟩

/-- Claim C10: with the navigation context unset or the page registry
empty, every public operation is a total no-op: `goToPage` changes nothing
and emits nothing, `updateCurrentPageFromScroll` returns immediately,
`renderVisiblePages` renders nothing and changes nothing, and `pageAt`
returns null for every out-of-range index. -/
theorem claim_C10_no_document_safety :
    (∀ geoms (vh : Int) (cur : Nat) (dpi idx : Int),
      goToPage false geoms vh cur dpi idx = (cur, [])) ∧
    (∀ (vh : Int) (cur : Nat) (dpi idx : Int),
      goToPage true [] vh cur dpi idx = (cur, [])) ∧
    (∀ geoms (s vh : Int) (cur : Nat),
      updateCurrentPageFromScroll false geoms s vh cur = (cur, false)) ∧
    (∀ (s vh : Int) (cur : Nat),
      updateCurrentPageFromScroll true [] s vh cur = (cur, false)) ∧
    (∀ (raster : Int → Bool) pm (s vh b dpi : Int),
      pm.hasDocument = false ∨ pm.slots = [] →
      renderVisiblePages raster pm s vh b dpi = (pm, [])) ∧
    (∀ pm (i : Int), i < 0 ∨ (pm.slots.length : Int) ≤ i → pageAt pm i = none) := by
  refine ⟨?_, ?_, ?_, ?_, ?_, ?_⟩
  · intro geoms vh cur dpi idx
    rfl
  · intro vh cur dpi idx
    simp only [goToPage]
    rw [if_neg (by decide : ¬(true = false))]
    rw [if_pos]
    by_cases h : idx < 0
    · exact Or.inl h
    · push_neg at h
      exact Or.inr (by simpa using h)
  · intro geoms s vh cur
    rfl
  · intro s vh cur
    simp only [updateCurrentPageFromScroll]
    rw [if_neg (by decide : ¬(true = false))]
    rw [if_pos (by simp)]
  · intro raster pm s vh b dpi h
    simp only [renderVisiblePages]
    rw [if_pos]
    rcases h with h | h
    · exact Or.inl h
    · exact Or.inr (by simp [List.isEmpty_iff, h])
  · intro pm i h
    simp only [pageAt]
    rw [if_pos h]

/-- Witness for C10 at concrete inputs. -/
theorem claim_C10_witness :
    goToPage false twoPageLayout 100 3 150 0 = (3, []) ∧
    goToPage true [] 100 3 150 0 = (3, []) ∧
    updateCurrentPageFromScroll true [] 0 100 2 = (2, false) ∧
    renderVisiblePages (fun _ => true) initPageManager 0 800 2 150 =
      (initPageManager, []) ∧
    pageAt pm10 (-1) = none ∧
    pageAt pm10 10 = none := by
  have h := claim_C10_no_document_safety
  exact ⟨h.1 twoPageLayout 100 3 150 0,
         h.2.1 100 3 150 0,
         h.2.2.2.1 0 100 2,
         h.2.2.2.2.1 (fun _ => true) initPageManager 0 800 2 150 (Or.inl rfl),
         h.2.2.2.2.2 pm10 (-1) (Or.inl (by decide)),
         h.2.2.2.2.2 pm10 10 (Or.inr (by decide))⟩
